import Mathlib

/- Shallow embedding of the nmos-testing conformance engine: the resource
crawler / response validator of GenericTest.py and the IS-07 session
lifecycle and correlation tests of nmostesting/suites/IS0702Test.py.
Python strings are modelled as lists of characters so that every string
operation computes by kernel reduction. -/

set_option maxHeartbeats 1000000

/-- Python strings are modelled as lists of characters. -/
abbrev Str := List Char

/-- Embed a Lean string literal into the model type. -/
def chars (s : String) : Str := s.data

/-- The opening curly-brace character used by path templates. -/
def obraceChar : Char := Char.ofNat 123

/-- The closing curly-brace character used by path templates. -/
def cbraceChar : Char := Char.ofNat 125

/-- Python substring containment, `needle in hay`. -/
def pyIn (needle hay : Str) : Bool :=
  needle.isPrefixOf hay ||
    match hay with
    | [] => false
    | _ :: t => pyIn needle t

/-- Python `s.rstrip("/")`: remove every trailing slash. -/
def pyRstripSlash (s : Str) : Str :=
  (s.reverse.dropWhile (· = '/')).reverse

/-- Python `s.endswith("/")`. -/
def pyEndsWithSlash (s : Str) : Bool :=
  s.getLast? = some '/'

/-- Python `s.split("/")`. -/
def pySplitSlash : Str → List Str
  | [] => [[]]
  | c :: rest =>
    let r := pySplitSlash rest
    if c = '/' then [] :: r
    else
      match r with
      | [] => [[c]]
      | h :: t => (c :: h) :: t

/-- Python `s.startswith(p)`. -/
def pyStartsWith (s p : Str) : Bool :=
  p.isPrefixOf s

/-- Python `s.upper()` (ASCII upcasing as used on HTTP method names). -/
def pyToUpper (s : Str) : Str :=
  s.map Char.toUpper

/-- Helper for `pyReplace`, structurally recursive on a character budget
that the caller sets to the length of the subject string. -/
def pyReplaceAux (old new : Str) : ℕ → Str → Str
  | _, [] => []
  | 0, s => s
  | budget + 1, c :: rest =>
    if old ≠ [] ∧ old.isPrefixOf (c :: rest) then
      new ++ pyReplaceAux old new budget ((c :: rest).drop old.length)
    else
      c :: pyReplaceAux old new budget rest

/-- Python `s.replace(old, new)`: replace all occurrences left to right.
At every use site in the source `old` is a brace-delimited parameter name,
hence non-empty. -/
def pyReplace (s old new : Str) : Str :=
  pyReplaceAux old new s.length s

/-- JSON values as returned by `response.json()`. Numbers are modelled as
integers; none of the embedded code inspects numeric payloads. -/
inductive Json where
  | null
  | bool (b : Bool)
  | num (n : Int)
  | str (s : Str)
  | arr (elems : List Json)
  | obj (fields : List (Str × Json))

/-- A test outcome as produced via `TestResult.Test` (`test.PASS()`,
`test.FAIL(msg)`, and so on). -/
inductive Outcome where
  | pass
  | fail (msg : Str)
  | warning (msg : Str)
  | manual (msg : Str)
  | notApplicable (msg : Str)
  | unclear (msg : Str)

namespace GenericTest

/-- Response headers, as an association list of name/value pairs (the
`requests` library normalises case; lookups here use the exact names the
source uses). -/
abbrev Headers := List (Str × Str)

/-- The methods treated as mutating by `validate_CORS` (line 106). -/
def mutating_methods : List Str :=
  [chars "OPTIONS", chars "POST", chars "PUT", chars "PATCH", chars "DELETE"]

/-- GenericTest.validate_CORS (lines 102-115). The source checks presence
of the misspelled singular header name `Access-Control-Allow-Method` (line
111) but then reads the plural `Access-Control-Allow-Methods` (line 113);
a response carrying the singular name but not the plural one makes Python
raise `KeyError`, modelled as `Except.error`. -/
def validate_CORS (method : Str) (headers : Headers) : Except Unit Bool :=
  if (headers.lookup (chars "Access-Control-Allow-Origin")).isNone then .ok false
  else if mutating_methods.contains method then
    match headers.lookup (chars "Access-Control-Allow-Headers") with
    | none => .ok false
    | some allowHeaders =>
      if pyIn method allowHeaders = false then .ok false
      else if (headers.lookup (chars "Access-Control-Allow-Method")).isNone then .ok false
      else
        match headers.lookup (chars "Access-Control-Allow-Methods") with
        | none => .error ()
        | some allowMethods =>
          if pyIn method allowMethods = false then .ok false
          else .ok true
  else .ok true

/-- Rendering of a header map used when the source formats
`response.headers` into a failure message (quoting elided). -/
def reprHeaders (headers : Headers) : Str :=
  chars "[" ++
    (List.intercalate (chars ", ")
      (headers.map (fun kv => kv.1 ++ chars ": " ++ kv.2))) ++ chars "]"

/-- Result of `jsonschema.validate(response.json(), schema, ...)` at lines
145-149: success, a `jsonschema.ValidationError` carrying the validator
diagnostic, or a `json.decoder.JSONDecodeError` from `response.json()`. -/
inductive ValidationResult where
  | ok
  | schemaViolation (diag : Str)
  | notJson

/-- GenericTest.check_response (lines 134-153). The schema argument is
`some ()` when `get_schema` found a schema for the method/path/status and
`none` otherwise; the body argument abstracts the validation attempt. -/
def check_response (method : Str) (headers : Headers)
    (schema : Option Unit) (body : ValidationResult) : Except Unit Outcome :=
  match validate_CORS method headers with
  | .error e => .error e
  | .ok false => .ok (.fail (chars "Incorrect CORS headers: " ++ reprHeaders headers))
  | .ok true =>
    match schema with
    | some _ =>
      match body with
      | .schemaViolation _ => .ok (.fail (chars "Response schema validation error"))
      | .notJson => .ok (.fail (chars "Invalid JSON received"))
      | .ok => .ok .pass
    | none => .ok (.manual (chars "Test suite unable to locate schema"))

/-- The identifier cache `self.saved_entities`: collection path mapped to
the harvested sub-resource identifiers, insertion ordered as a Python
dict. -/
abbrev SavedEntities := List (Str × List Json)

/-- Append `ids` to the value of the first entry whose key is `path`
(Python `self.saved_entities[path] += subresources`). -/
def cacheExtend (c : SavedEntities) (path : Str) (ids : List Json) : SavedEntities :=
  match c with
  | [] => []
  | (p, l) :: rest =>
    if p = path then (p, l ++ ids) :: rest
    else (p, l) :: cacheExtend rest path ids

/-- The harvesting loop of save_subresources (lines 250-258): object
entries contribute their `id` field, string entries ending in a slash
contribute the string with trailing slashes stripped. -/
def harvestLoop : List Json → List Json → List Json
  | [], acc => acc
  | e :: rest, acc =>
    match e with
    | Json.obj fields =>
      match fields.lookup (chars "id") with
      | some v => harvestLoop rest (acc ++ [v])
      | none => harvestLoop rest acc
    | Json.str s =>
      if pyEndsWithSlash s then harvestLoop rest (acc ++ [Json.str (pyRstripSlash s)])
      else harvestLoop rest acc
    | _ => harvestLoop rest acc

/-- Identifiers harvested from a response body; `none` models a body that
is not JSON (`json.decoder.JSONDecodeError` is swallowed at line 259) and
a non-array JSON body harvests nothing. -/
def harvestBody : Option Json → List Json
  | some (Json.arr entries) => harvestLoop entries []
  | _ => []

/-- GenericTest.save_subresources (lines 246-266). -/
def save_subresources (c : SavedEntities) (path : Str) (body : Option Json) : SavedEntities :=
  if 0 < (harvestBody body).length then
    if (c.lookup path).isNone then c ++ [(path, harvestBody body)]
    else cacheExtend c path (harvestBody body)
  else c

/-- The per-entry harvest rule as the specification states it (spec 4.2
step 5), for comparison with the source loop `harvestLoop`: a dict entry
with an `id` field contributes that id, a string entry ending in the path
separator contributes the string with the trailing separator characters
stripped, every other entry contributes nothing. -/
def harvestEntrySpec : Json → Option Json
  | Json.obj fields => fields.lookup (chars "id")
  | Json.str s =>
    if pyEndsWithSlash s then some (Json.str (pyRstripSlash s)) else none
  | _ => none

/-- The loop of check_api_resource lines 200-206: walk the slash-separated
parts of the template, stopping at the first brace-opened parameter
segment, accumulating `"/" + part` for non-empty parts. -/
def collectionPathLoop : List Str → Str → Str
  | [], acc => acc
  | part :: rest, acc =>
    if pyStartsWith part [obraceChar] then acc
    else if part ≠ [] then collectionPathLoop rest (acc ++ '/' :: part)
    else collectionPathLoop rest acc

/-- The collection path of a parameterised template (lines 200-206). -/
def collectionPath (template : Str) : Str :=
  collectionPathLoop (pySplitSlash template) []

/-- A declared path parameter (RAML `params` entry). -/
structure ParamSpec where
  name : Str

/-- One declared read endpoint: path template, HTTP method and declared
parameters (`resource[0]`, `resource[1]["method"]`, `resource[1]["params"]`). -/
structure ReadResource where
  path : Str
  method : Str
  params : List ParamSpec

/-- The outcome of the URL-construction half of check_api_resource:
either a request to issue (test name and concrete URL), an immediate
NOT_APPLICABLE result, the source's `return None` for multi-parameter
paths (`skipped`), or an input on which the Python would raise
(`pyError`: empty saved-entity list or a non-string identifier). -/
inductive Dispatch where
  | request (testName url : Str)
  | notApplicable (testName msg : Str)
  | skipped
  | pyError

/-- The test name format of lines 212-215, 218-221 and 227-230. -/
def testNameOf (api version method urlPart : Str) : Str :=
  pyToUpper method ++ chars " /x-nmos/" ++ api ++ chars "/" ++ version ++ urlPart

/-- GenericTest.check_api_resource, lines 197-232 (classification, cache
lookup and URL construction; the issued request and response handling are
modelled separately). -/
def check_api_resource (saved : SavedEntities) (apiUrl api version : Str)
    (r : ReadResource) : Dispatch :=
  match r.params with
  | [p] =>
    let path := collectionPath r.path
    match saved.lookup path with
    | some entities =>
      match entities with
      | Json.str entity :: _ =>
        let urlParam := pyReplace r.path (obraceChar :: (p.name ++ [cbraceChar])) entity
        Dispatch.request (testNameOf api version r.method urlParam)
          (pyRstripSlash apiUrl ++ urlParam)
      | _ => Dispatch.pyError
    | none =>
      Dispatch.notApplicable (testNameOf api version r.method r.path)
        (chars "No resources found to perform this test")
  | [] =>
    Dispatch.request (testNameOf api version r.method r.path)
      (pyRstripSlash apiUrl ++ r.path)
  | _ => Dispatch.skipped

/-- The dispatching fragment of GenericTest.basics (lines 183-188) for one
API: each declared read endpoint is dispatched once per declared 200
response code, and a `None` result (`Dispatch.skipped`) is not appended to
the outcome list. -/
def basicsResourceResults (saved : SavedEntities) (apiUrl api version : Str)
    (reads : List (ReadResource × List ℕ)) : List Dispatch :=
  reads.foldl
    (fun acc rc =>
      rc.2.foldl
        (fun acc2 code =>
          if code = 200 then
            match check_api_resource saved apiUrl api version rc.1 with
            | Dispatch.skipped => acc2
            | d => acc2 ++ [d]
          else acc2)
        acc)
    []

/-- One crawl run, as the ordered sequence of (path, parsed body) fetch
events; the cache is the left fold of save_subresources over them (line
242 harvests after every successful fetch, starting from the empty dict
created at line 43). -/
def runCache (events : List (Str × Option Json)) : SavedEntities :=
  events.foldl (fun c e => save_subresources c e.1 e.2) []

/-- The identifier check_api_resource substitutes into a parameterised
path: the first saved entity under the template's collection path (line
209, `self.saved_entities[path][0]`). -/
def substitutedEntity (saved : SavedEntities) (template : Str) : Option Json :=
  (saved.lookup (collectionPath template)).bind List.head?

end GenericTest

namespace IS0702

/-- Number of seconds expected between heartbeats from IS-07 WebSocket
Receivers (IS0702Test.py line 32). -/
def WS_HEARTBEAT_INTERVAL : ℕ := 5

/-- Number of seconds without heartbeats before an IS-07 WebSocket Sender
closes a connection (IS0702Test.py line 35). -/
def WS_TIMEOUT : ℕ := 12

/-- A TAI timestamp as a (seconds, nanoseconds) pair. -/
abbrev Tai := ℕ × ℕ

/-- Modelled from the spec: `IS04Utils.compare_resource_version` (called at
line 356 of IS0702Test.py; IS04Utils.py is not among the sources) compares
two TAI timestamps, returning 1 when the first is later, -1 when earlier
and 0 when equal — the heartbeat check demands a `creation` timestamp
strictly later than the origin. -/
def compare_resource_version (a b : Tai) : Int :=
  if b.1 < a.1 then 1
  else if a.1 < b.1 then -1
  else if b.2 < a.2 then 1
  else if a.2 < b.2 then -1
  else 0

/-- Render a TAI timestamp the way the health messages carry it
(`seconds:nanoseconds`). -/
def taiStr (t : Tai) : Str :=
  Nat.toDigits 10 t.1 ++ ':' :: Nat.toDigits 10 t.2

/-- The `timing` object of a parsed health response; each field is absent
when the corresponding key is missing from the JSON. -/
structure TimingObj where
  originTimestamp : Option Tai
  creationTimestamp : Option Tai

/-- A parsed health response (`json.loads(messages[0])`); fields are
absent when the corresponding key is missing. -/
structure HealthReply where
  messageType : Option Str
  timing : Option TimingObj

/-- The per-reply validation of test_04 lines 334-369 (after a single
message was received): message_type must be "health", the timing object
must be present, origin_timestamp must equal the timestamp sent in the
health command and creation_timestamp must compare strictly later than
it. Returns the FAIL message if any check trips, `none` otherwise. -/
def healthCheckReply (uri : Str) (sent : Tai) (r : HealthReply) : Option Str :=
  match r.messageType with
  | none => some (chars "WebSocket " ++ uri ++ chars " health responsedoes not have a message_type")
  | some mt =>
    if mt ≠ chars "health" then
      some (chars "WebSocket " ++ uri ++
        chars " health response message_type is not set to health but instead is " ++ mt)
    else
      match r.timing with
      | none => some (chars "WebSocket " ++ uri ++ chars " health responsedoes not have a timing object")
      | some tm =>
        match tm.originTimestamp with
        | none => some (chars "WebSocket " ++ uri ++ chars " health responsedoes not have origin_timestamp")
        | some o =>
          if o ≠ sent then
            some (chars "WebSocket " ++ uri ++
              chars " health response origin_timestamp is not set to the original timestamp but instead is " ++
              taiStr o)
          else
            match tm.creationTimestamp with
            | none =>
              some (chars "WebSocket " ++ uri ++ chars " health responsedoes not have creation_timestamp")
            | some c =>
              if compare_resource_version c sent ≠ 1 then
                some (chars "WebSocket " ++ uri ++
                  chars " health response creation_timestamp expected tobe later than origin. creation_timestamp was " ++
                  taiStr c)
              else none

/-- The heartbeat verdict of test_04 lines 324-369 for one kept-alive
session: the received messages of the session (an unparseable one is
`none`), checked against the timestamp sent in the health command.
Zero messages and more than one message fail immediately; exactly one is
validated by `healthCheckReply`. Returns the FAIL message, if any. -/
def healthCheckFail (uri : Str) (sent : Tai) (messages : List (Option HealthReply)) : Option Str :=
  match messages with
  | [] =>
    some (chars "WebSocket " ++ uri ++
      chars " did not respond with a health responseto the health command")
  | [m] =>
    match m with
    | none => some (chars "WebSocket " ++ uri ++ chars " health response cannot be parsedexception ")
    | some r => healthCheckReply uri sent r
  | _ =>
    some (chars "WebSocket " ++ uri ++
      chars " responded with more than 1 messageto the health command")

/-- The FAIL message of the pre-timeout loop (lines 377-378). -/
def preTimeoutFailMsg (uri : Str) : Str :=
  chars "WebSocket connection (no health cmd sent) to " ++ uri ++
    chars " was closed too early"

/-- Helper for `preTimeoutLoop`: `remaining` counts the one-second polls
left before the loop condition `time.time() < start_time + WS_TIMEOUT - 1`
goes false. At each polled second every session of the no-health cohort is
inspected and the first one observed non-open yields the FAIL. -/
def preTimeoutLoopAux (openAt : ℕ → Str → Bool) (uris : List Str) : ℕ → ℕ → Option Str
  | _, 0 => none
  | t, remaining + 1 =>
    match uris.find? (fun u => ! openAt t u) with
    | some u => some (preTimeoutFailMsg u)
    | none => preTimeoutLoopAux openAt uris (t + 1) remaining

/-- The pre-timeout polling loop of test_04 lines 371-379, discretised to
the source's one-second polls (`time.sleep(1)`): starting at second
`tStart` after the run start, the no-health cohort is checked at every
second `t` with `t < WS_TIMEOUT - 1`. `openAt t u` is the observed open
state of the session to `u` at second `t`. -/
def preTimeoutLoop (openAt : ℕ → Str → Bool) (uris : List Str) (tStart : ℕ) : Option Str :=
  preTimeoutLoopAux openAt uris tStart (WS_TIMEOUT - 1 - tStart)

/-- The required ext parameters for WebSocket senders (line 92). -/
def ext_params_websocket : List Str :=
  [chars "ext_is_07_source_id", chars "ext_is_07_rest_api_url"]

/-- The required ext parameters for MQTT senders (line 93). -/
def ext_params_mqtt : List Str :=
  [chars "ext_is_07_rest_api_url"]

/-- Python `sorted(...)` on a list of strings. -/
def pySorted (l : List Str) : List Str :=
  l.insertionSort (· ≤ ·)

/-- One sender under test in test_01: its id, its transport type
(`self.transport_types[sender]`) and, when the sender appears in
`self.senders_active`, the key set of `transport_params[0]`. -/
structure SenderRecord where
  senderId : Str
  transportType : Str
  activeParams : Option (List Str)

/-- The `valid_params` computation of test_01 lines 98-105: the ext_
prefixed parameter names must sort equal to the declared list for the
sender's transport kind; any other transport kind is invalid. -/
def test01_valid_params (transportType : Str) (keys : List Str) : Bool :=
  let params := keys.filter (fun p => pyStartsWith p (chars "ext_"))
  if transportType = chars "urn:x-nmos:transport:websocket" then
    decide (pySorted params = pySorted ext_params_websocket)
  else if transportType = chars "urn:x-nmos:transport:mqtt" then
    decide (pySorted params = pySorted ext_params_mqtt)
  else false

/-- The sender loop of test_01 lines 95-110: the first sender missing from
the Connection API, or failing the ext-parameter check, fails the test;
if all senders pass the test passes. -/
def test01_loop : List SenderRecord → Outcome
  | [] => Outcome.pass
  | s :: rest =>
    match s.activeParams with
    | none => Outcome.fail (chars "Sender " ++ s.senderId ++ chars " not found in Connection API")
    | some keys =>
      if test01_valid_params s.transportType keys then test01_loop rest
      else Outcome.fail (chars "Missing required ext parameters for Sender " ++ s.senderId)

/-- IS0702Test.test_01 (lines 89-112): UNCLEAR when there are no senders
to test, otherwise the sender loop. -/
def test_01 (senders : List SenderRecord) : Outcome :=
  match senders with
  | [] => Outcome.unclear (chars "Not tested. No resources found.")
  | l => test01_loop l

end IS0702

namespace GenericTest

theorem str_lookup_cons {β : Type} (a k : Str) (v : β) (rest : List (Str × β)) :
    List.lookup a ((k, v) :: rest) = if a = k then some v else List.lookup a rest := by
  rw [List.lookup_cons]
  by_cases h : a = k
  · simp [h]
  · have hb : (a == k) = false := beq_eq_false_iff_ne.mpr h
    simp [hb, h]

theorem lookup_cacheExtend (c : SavedEntities) (path : Str) (ids : List Json) (p : Str) :
    (cacheExtend c path ids).lookup p =
      if p = path then (c.lookup p).map (fun l => l ++ ids) else c.lookup p := by
  induction c with
  | nil => by_cases h : p = path <;> simp [cacheExtend, h]
  | cons kv rest ih =>
    obtain ⟨k, l⟩ := kv
    simp only [cacheExtend]
    by_cases hk : k = path
    · subst hk
      rw [if_pos rfl, str_lookup_cons, str_lookup_cons]
      by_cases hp : p = k
      · simp [hp]
      · simp [hp]
    · rw [if_neg hk, str_lookup_cons, str_lookup_cons, ih]
      by_cases hp : p = k
      · have hppath : p ≠ path := fun h => hk (hp ▸ h)
        simp [hp, hppath, hk]
      · simp [hp]

theorem lookup_append_single (c : SavedEntities) (path : Str) (ids : List Json) (p : Str) :
    (c ++ [(path, ids)]).lookup p =
      (c.lookup p).or (if p = path then some ids else none) := by
  induction c with
  | nil => simp [str_lookup_cons]
  | cons kv rest ih =>
    obtain ⟨k, l⟩ := kv
    rw [List.cons_append, str_lookup_cons, str_lookup_cons, ih]
    by_cases hp : p = k <;> simp [hp]

theorem lookup_save_subresources_of_empty (c : SavedEntities) (path : Str)
    (body : Option Json) (p : Str) (hb : harvestBody body = []) :
    (save_subresources c path body).lookup p = c.lookup p := by
  unfold save_subresources
  simp [hb]

theorem lookup_save_subresources_of_harvest (c : SavedEntities) (path : Str)
    (body : Option Json) (p : Str) (hb : harvestBody body ≠ []) :
    (save_subresources c path body).lookup p =
      if p = path then some ((c.lookup p).getD [] ++ harvestBody body)
      else c.lookup p := by
  have hs : 0 < (harvestBody body).length := by
    cases h : harvestBody body with
    | nil => exact absurd h hb
    | cons a t => simp [h]
  unfold save_subresources
  rw [if_pos hs]
  by_cases hl : (c.lookup path).isNone = true
  · rw [if_pos hl, lookup_append_single]
    have hnone : c.lookup path = none := by
      cases h : c.lookup path with
      | none => rfl
      | some v => rw [h] at hl; simp at hl
    by_cases hp : p = path
    · subst hp
      simp [hnone]
    · simp [hp]
  · rw [if_neg hl, lookup_cacheExtend]
    obtain ⟨v, hv⟩ : ∃ v, c.lookup path = some v := by
      cases h : c.lookup path with
      | none => rw [h] at hl; simp at hl
      | some v => exact ⟨v, rfl⟩
    by_cases hp : p = path
    · subst hp
      simp [hv]
    · simp [hp]

theorem harvestLoop_eq_filterMap (entries : List Json) (acc : List Json) :
    harvestLoop entries acc = acc ++ entries.filterMap harvestEntrySpec := by
  induction entries generalizing acc with
  | nil => simp [harvestLoop]
  | cons e rest ih =>
    cases e with
    | obj fields =>
      cases h : fields.lookup (chars "id") with
      | some v => simp [harvestLoop, h, harvestEntrySpec, ih]
      | none => simp [harvestLoop, h, harvestEntrySpec, ih]
    | str s =>
      cases h : pyEndsWithSlash s <;>
        simp [harvestLoop, h, harvestEntrySpec, ih]
    | null => simp [harvestLoop, harvestEntrySpec, ih]
    | bool b => simp [harvestLoop, harvestEntrySpec, ih]
    | num n => simp [harvestLoop, harvestEntrySpec, ih]
    | arr elems => simp [harvestLoop, harvestEntrySpec, ih]

theorem mem_lookup_foldl_save :
    ∀ (events : List (Str × Option Json)) (c : SavedEntities) (p : Str) (l : List Json) (e : Json),
      (events.foldl (fun c2 ev => save_subresources c2 ev.1 ev.2) c).lookup p = some l →
      e ∈ l →
      (∃ l0, c.lookup p = some l0 ∧ e ∈ l0) ∨ ∃ b, (p, b) ∈ events ∧ e ∈ harvestBody b := by
  intro events
  induction events with
  | nil =>
    intro c p l e hl he
    exact Or.inl ⟨l, hl, he⟩
  | cons ev rest ih =>
    intro c p l e hl he
    simp only [List.foldl_cons] at hl
    rcases ih _ p l e hl he with ⟨l0, hl0, hel0⟩ | ⟨b, hb, hbe⟩
    · by_cases hbody : harvestBody ev.2 = []
      · rw [lookup_save_subresources_of_empty _ _ _ _ hbody] at hl0
        exact Or.inl ⟨l0, hl0, hel0⟩
      · rw [lookup_save_subresources_of_harvest _ _ _ _ hbody] at hl0
        by_cases hp : p = ev.1
        · rw [if_pos hp] at hl0
          injection hl0 with h0
          rw [← h0] at hel0
          rcases List.mem_append.mp hel0 with hleft | hright
          · cases hc : c.lookup p with
            | none => rw [hc] at hleft; simp at hleft
            | some lc =>
              rw [hc] at hleft
              simp only [Option.getD_some] at hleft
              exact Or.inl ⟨lc, rfl, hleft⟩
          · refine Or.inr ⟨ev.2, ?_, hright⟩
            rw [hp, Prod.mk.eta]
            exact List.mem_cons_self _ _
        · rw [if_neg hp] at hl0
          exact Or.inl ⟨l0, hl0, hel0⟩
    · exact Or.inr ⟨b, List.mem_cons_of_mem _ hb, hbe⟩

theorem foldl_save_lookup_nonempty :
    ∀ (events : List (Str × Option Json)) (c : SavedEntities),
      (∀ p l, c.lookup p = some l → l ≠ []) →
      ∀ p l, (events.foldl (fun c2 ev => save_subresources c2 ev.1 ev.2) c).lookup p = some l →
        l ≠ [] := by
  intro events
  induction events with
  | nil => intro c hc p l hl; exact hc p l hl
  | cons ev rest ih =>
    intro c hc p l hl
    simp only [List.foldl_cons] at hl
    refine ih _ ?_ p l hl
    intro q m hm
    by_cases hbody : harvestBody ev.2 = []
    · rw [lookup_save_subresources_of_empty _ _ _ _ hbody] at hm
      exact hc q m hm
    · rw [lookup_save_subresources_of_harvest _ _ _ _ hbody] at hm
      by_cases hq : q = ev.1
      · rw [if_pos hq] at hm
        injection hm with h0
        rw [← h0]
        exact fun h => hbody (List.append_eq_nil.mp h).2
      · rw [if_neg hq] at hm
        exact hc q m hm

end GenericTest

/-- C1: every identifier the crawler substitutes into a parameterised path
was previously appended to the identifier-cache entry for that path's
collection endpoint by harvesting an actual list-response body fetched
earlier in the same run: if after a run of fetch events the entity the
crawler would substitute for a template is `e`, then some event of the
run fetched the template's collection path and its body harvested `e`.
The crawler never substitutes an identifier that was not harvested this
way. -/
theorem substituted_identifier_was_harvested
    (events : List (Str × Option Json)) (template : Str) (e : Json)
    (h : GenericTest.substitutedEntity (GenericTest.runCache events) template = some e) :
    ∃ body, (GenericTest.collectionPath template, body) ∈ events ∧
      e ∈ GenericTest.harvestBody body := by
  unfold GenericTest.substitutedEntity GenericTest.runCache at h
  cases hl : List.lookup (GenericTest.collectionPath template)
      (List.foldl (fun c2 ev => GenericTest.save_subresources c2 ev.1 ev.2) [] events) with
  | none => rw [hl] at h; simp at h
  | some l =>
    rw [hl] at h
    simp only [Option.some_bind] at h
    have he : e ∈ l := List.mem_of_mem_head? h
    rcases GenericTest.mem_lookup_foldl_save events []
        (GenericTest.collectionPath template) l e hl he with ⟨l0, hl0, _⟩ | ⟨b, hb, hbe⟩
    · simp [List.lookup] at hl0
    · exact ⟨b, hb, hbe⟩

/-- Witness for C1: a run with a single list response to "/widgets"
containing the id "a"; the substituted entity for the parameterised
template is "a" and the theorem recovers its harvesting event. -/
theorem substituted_identifier_was_harvested_witness :
    GenericTest.substitutedEntity
        (GenericTest.runCache
          [(chars "/widgets", some (Json.arr [Json.obj [(chars "id", Json.str (chars "a"))]]))])
        (chars "/widgets/" ++ obraceChar :: (chars "widgetId" ++ [cbraceChar]))
      = some (Json.str (chars "a")) ∧
    ∃ body,
      (GenericTest.collectionPath
          (chars "/widgets/" ++ obraceChar :: (chars "widgetId" ++ [cbraceChar])), body) ∈
        [(chars "/widgets", some (Json.arr [Json.obj [(chars "id", Json.str (chars "a"))]]))] ∧
      Json.str (chars "a") ∈ GenericTest.harvestBody body :=
  ⟨rfl, substituted_identifier_was_harvested _ _ _ rfl⟩

/-- C2: harvesting a JSON-array response body produces, in entry order,
the id field of each object entry that has one and each string entry
ending in the path separator with the trailing separator characters
stripped (other entries contribute nothing); the harvested identifiers
are appended to the cache entry for the fetched path (created if absent),
an existing entry keeps all earlier identifiers as a prefix, and entries
for other paths are untouched. -/
theorem save_subresources_appends_harvest
    (c : GenericTest.SavedEntities) (path : Str) (entries : List Json) :
    GenericTest.harvestLoop entries [] = entries.filterMap GenericTest.harvestEntrySpec ∧
    (List.lookup path
        (GenericTest.save_subresources c path (some (Json.arr entries)))).getD []
      = (List.lookup path c).getD [] ++ entries.filterMap GenericTest.harvestEntrySpec ∧
    ∀ p, p ≠ path →
      List.lookup p (GenericTest.save_subresources c path (some (Json.arr entries)))
        = List.lookup p c := by
  have hloop := GenericTest.harvestLoop_eq_filterMap entries []
  rw [List.nil_append] at hloop
  have hbody : GenericTest.harvestBody (some (Json.arr entries))
      = entries.filterMap GenericTest.harvestEntrySpec := hloop
  refine ⟨hloop, ?_, ?_⟩
  · by_cases hb : GenericTest.harvestBody (some (Json.arr entries)) = []
    · rw [GenericTest.lookup_save_subresources_of_empty _ _ _ _ hb]
      rw [← hbody, hb, List.append_nil]
    · rw [GenericTest.lookup_save_subresources_of_harvest _ _ _ _ hb, if_pos rfl]
      rw [Option.getD_some, hbody]
  · intro p hp
    by_cases hb : GenericTest.harvestBody (some (Json.arr entries)) = []
    · exact GenericTest.lookup_save_subresources_of_empty _ _ _ _ hb
    · rw [GenericTest.lookup_save_subresources_of_harvest _ _ _ _ hb, if_neg hp]

/-- Witness for C2: appending a harvest for "/widgets" leaves the
existing entry for another path "/x" untouched. -/
theorem save_subresources_appends_harvest_witness :
    (chars "/x") ≠ (chars "/widgets") ∧
    List.lookup (chars "/x")
        (GenericTest.save_subresources [(chars "/x", [Json.str (chars "z")])] (chars "/widgets")
          (some (Json.arr [Json.obj [(chars "id", Json.str (chars "a"))], Json.str (chars "w/")])))
      = List.lookup (chars "/x") [(chars "/x", [Json.str (chars "z")])] :=
  ⟨by decide, (save_subresources_appends_harvest _ _ _).2.2 _ (by decide)⟩

/-- C10: every value stored in the saved-entities cache over any run is a
non-empty list — save_subresources creates or extends an entry only with
a non-empty harvest and appending never shrinks — so the index-0
selection of check_api_resource (line 209) is always within bounds. -/
theorem saved_entities_values_nonempty
    (events : List (Str × Option Json)) (p : Str) (l : List Json)
    (h : List.lookup p (GenericTest.runCache events) = some l) :
    0 < l.length ∧ l.head?.isSome = true := by
  have hne : l ≠ [] := by
    refine GenericTest.foldl_save_lookup_nonempty events [] ?_ p l ?_
    · intro q m hm
      simp [List.lookup] at hm
    · exact h
  refine ⟨List.length_pos.mpr hne, ?_⟩
  cases l with
  | nil => exact absurd rfl hne
  | cons a t => rfl

/-- Witness for C10 at a one-event run seeding "/w" with one id. -/
theorem saved_entities_values_nonempty_witness :
    List.lookup (chars "/w")
        (GenericTest.runCache
          [(chars "/w", some (Json.arr [Json.obj [(chars "id", Json.str (chars "a"))]]))])
      = some [Json.str (chars "a")] ∧
    0 < ([Json.str (chars "a")] : List Json).length :=
  ⟨rfl,
    (saved_entities_values_nonempty
      [(chars "/w", some (Json.arr [Json.obj [(chars "id", Json.str (chars "a"))]]))]
      (chars "/w") [Json.str (chars "a")] rfl).1⟩

/-- The C5 claim as stated: a declared read endpoint whose template
declares more than one parameter still contributes a visible outcome to
the reported outcome sequence of the basics crawl. -/
def claimC5 : Prop :=
  ∀ (saved : GenericTest.SavedEntities) (apiUrl api version : Str)
    (r : GenericTest.ReadResource) (codes : List ℕ),
    1 < r.params.length → (200 : ℕ) ∈ codes →
    GenericTest.basicsResourceResults saved apiUrl api version [(r, codes)] ≠ []

/-- C5 counterexample: for a two-parameter endpoint check_api_resource
returns None (line 232) and basics appends nothing (line 187-188), so the
outcome list is empty — the endpoint is dropped without any record. -/
theorem claimC5_false : ¬ claimC5 := by
  intro h
  have hc := h [] (chars "http://api") (chars "events") (chars "v1.0")
      ⟨chars "/a", chars "get", [⟨chars "x"⟩, ⟨chars "y"⟩]⟩ [200]
      (by decide) (by decide)
  exact hc rfl

/-- C5 amended: an endpoint declaring more than one parameter produces no
test outcome at all — check_api_resource returns None for it and the
basics loop filters the None out, so nothing about the endpoint reaches
the reported outcome sequence. -/
theorem check_api_resource_multi_param_dropped
    (saved : GenericTest.SavedEntities) (apiUrl api version : Str)
    (r : GenericTest.ReadResource) (h : 1 < r.params.length) :
    GenericTest.check_api_resource saved apiUrl api version r
      = GenericTest.Dispatch.skipped ∧
    ∀ codes, GenericTest.basicsResourceResults saved apiUrl api version [(r, codes)] = [] := by
  have hskip : GenericTest.check_api_resource saved apiUrl api version r
      = GenericTest.Dispatch.skipped := by
    match hp : r.params with
    | [] => rw [hp] at h; simp at h
    | [p] => rw [hp] at h; simp at h
    | p1 :: p2 :: rest =>
      unfold GenericTest.check_api_resource
      rw [hp]
  refine ⟨hskip, ?_⟩
  have hfold : ∀ (codes : List ℕ) (acc : List GenericTest.Dispatch),
      codes.foldl
        (fun acc2 code =>
          if code = 200 then
            match GenericTest.check_api_resource saved apiUrl api version r with
            | GenericTest.Dispatch.skipped => acc2
            | d => acc2 ++ [d]
          else acc2)
        acc = acc := by
    intro codes
    induction codes with
    | nil => intro acc; rfl
    | cons code rest2 ih =>
      intro acc
      rw [List.foldl_cons, ih]
      by_cases hc : code = 200
      · rw [if_pos hc, hskip]
      · rw [if_neg hc]
  intro codes
  exact hfold codes []

/-- Witness for the C5 amended theorem at a concrete two-parameter
endpoint. -/
theorem check_api_resource_multi_param_dropped_witness :
    1 < (GenericTest.ReadResource.mk (chars "/a") (chars "get")
          [⟨chars "x"⟩, ⟨chars "y"⟩]).params.length ∧
    GenericTest.check_api_resource [] (chars "http://api") (chars "events") (chars "v1.0")
        ⟨chars "/a", chars "get", [⟨chars "x"⟩, ⟨chars "y"⟩]⟩
      = GenericTest.Dispatch.skipped :=
  ⟨by decide,
    (check_api_resource_multi_param_dropped [] (chars "http://api") (chars "events")
      (chars "v1.0") ⟨chars "/a", chars "get", [⟨chars "x"⟩, ⟨chars "y"⟩]⟩ (by decide)).1⟩

/-- C8: for a declared single-parameter path, a cache hit on the
template's collection path makes check_api_resource issue exactly one
request whose URL substitutes the first harvested identifier (entry index
0) into the template, while a cache miss yields NOT_APPLICABLE with the
"no resources found" message rather than a failure or a silent skip. -/
theorem check_api_resource_single_param
    (saved : GenericTest.SavedEntities) (apiUrl api version : Str)
    (r : GenericTest.ReadResource) (p : GenericTest.ParamSpec)
    (hp : r.params = [p]) :
    (∀ entity rest,
        List.lookup (GenericTest.collectionPath r.path) saved
          = some (Json.str entity :: rest) →
        GenericTest.check_api_resource saved apiUrl api version r =
          GenericTest.Dispatch.request
            (GenericTest.testNameOf api version r.method
              (pyReplace r.path (obraceChar :: (p.name ++ [cbraceChar])) entity))
            (pyRstripSlash apiUrl ++
              pyReplace r.path (obraceChar :: (p.name ++ [cbraceChar])) entity)) ∧
    (List.lookup (GenericTest.collectionPath r.path) saved = none →
        GenericTest.check_api_resource saved apiUrl api version r =
          GenericTest.Dispatch.notApplicable
            (GenericTest.testNameOf api version r.method r.path)
            (chars "No resources found to perform this test")) := by
  constructor
  · intro entity rest hl
    unfold GenericTest.check_api_resource
    rw [hp]
    simp only [hl]
  · intro hl
    unfold GenericTest.check_api_resource
    rw [hp]
    simp only [hl]

/-- Witness for C8: the cache seeded with ids "a","b" for "/widgets"
makes the parameterised template dispatch one request substituting "a";
with an empty cache the dispatch is NOT_APPLICABLE. -/
theorem check_api_resource_single_param_witness :
    List.lookup
        (GenericTest.collectionPath
          (chars "/widgets/" ++ obraceChar :: (chars "widgetId" ++ [cbraceChar])))
        [(chars "/widgets", [Json.str (chars "a"), Json.str (chars "b")])]
      = some (Json.str (chars "a") :: [Json.str (chars "b")]) ∧
    GenericTest.check_api_resource
        [(chars "/widgets", [Json.str (chars "a"), Json.str (chars "b")])]
        (chars "http://api/") (chars "events") (chars "v1.0")
        ⟨chars "/widgets/" ++ obraceChar :: (chars "widgetId" ++ [cbraceChar]),
          chars "get", [⟨chars "widgetId"⟩]⟩
      = GenericTest.Dispatch.request
          (GenericTest.testNameOf (chars "events") (chars "v1.0") (chars "get")
            (pyReplace (chars "/widgets/" ++ obraceChar :: (chars "widgetId" ++ [cbraceChar]))
              (obraceChar :: (chars "widgetId" ++ [cbraceChar])) (chars "a")))
          (pyRstripSlash (chars "http://api/") ++
            pyReplace (chars "/widgets/" ++ obraceChar :: (chars "widgetId" ++ [cbraceChar]))
              (obraceChar :: (chars "widgetId" ++ [cbraceChar])) (chars "a")) :=
  ⟨rfl,
    (check_api_resource_single_param
      [(chars "/widgets", [Json.str (chars "a"), Json.str (chars "b")])]
      (chars "http://api/") (chars "events") (chars "v1.0")
      ⟨chars "/widgets/" ++ obraceChar :: (chars "widgetId" ++ [cbraceChar]),
        chars "get", [⟨chars "widgetId"⟩]⟩
      ⟨chars "widgetId"⟩ rfl).1 (chars "a") [Json.str (chars "b")] rfl⟩

/-- The C6 claim as stated: a response to a mutating-method (POST) request
that lacks the allow-methods cross-origin header makes response validation
FAIL with a message that names the missing header, regardless of body and
status conformance. -/
def claimC6 : Prop :=
  ∀ (headers : GenericTest.Headers) (schema : Option Unit)
    (body : GenericTest.ValidationResult),
    List.lookup (chars "Access-Control-Allow-Methods") headers = none →
    ∃ msg,
      GenericTest.check_response (chars "POST") headers schema body
        = Except.ok (Outcome.fail msg) ∧
      pyIn (chars "Access-Control-Allow-Methods") msg = true

/-- C6 counterexample: a POST response with the origin and allow-headers
headers but no allow-methods header does FAIL, but the message is
"Incorrect CORS headers: " followed by the received headers and does not
name the missing header. -/
theorem claimC6_false : ¬ claimC6 := by
  intro h
  rcases h [(chars "Access-Control-Allow-Origin", chars "*"),
            (chars "Access-Control-Allow-Headers", chars "Content-Type, POST")]
      (some ()) GenericTest.ValidationResult.ok (by decide) with ⟨msg, hmsg, hin⟩
  have hcomp : GenericTest.check_response (chars "POST")
      [(chars "Access-Control-Allow-Origin", chars "*"),
       (chars "Access-Control-Allow-Headers", chars "Content-Type, POST")]
      (some ()) GenericTest.ValidationResult.ok
      = Except.ok (Outcome.fail (chars "Incorrect CORS headers: " ++
          GenericTest.reprHeaders
            [(chars "Access-Control-Allow-Origin", chars "*"),
             (chars "Access-Control-Allow-Headers", chars "Content-Type, POST")])) := rfl
  rw [hcomp] at hmsg
  injection hmsg with h1
  injection h1 with h2
  cases h2
  exact absurd hin (by decide)

/-- C6 amended: a POST response lacking both the allow-methods header and
the misspelled singular name the source actually probes
(Access-Control-Allow-Method, line 111) fails response validation, but
the FAIL message is "Incorrect CORS headers: " followed by the response's
headers — it does not name the missing header. (When the singular name is
present while the plural is absent, line 113 raises KeyError instead of
returning a verdict.) -/
theorem check_response_missing_allow_methods
    (headers : GenericTest.Headers) (schema : Option Unit)
    (body : GenericTest.ValidationResult)
    (hplural : List.lookup (chars "Access-Control-Allow-Methods") headers = none)
    (hsing : List.lookup (chars "Access-Control-Allow-Method") headers = none) :
    GenericTest.check_response (chars "POST") headers schema body
      = Except.ok (Outcome.fail (chars "Incorrect CORS headers: " ++
          GenericTest.reprHeaders headers)) := by
  have hmut : GenericTest.mutating_methods.contains (chars "POST") = true := by decide
  have hmem : chars "POST" ∈ GenericTest.mutating_methods := by decide
  have hv : GenericTest.validate_CORS (chars "POST") headers = Except.ok false := by
    by_cases ho : (List.lookup (chars "Access-Control-Allow-Origin") headers).isNone = true
    · simp [GenericTest.validate_CORS, ho]
    · cases hh : List.lookup (chars "Access-Control-Allow-Headers") headers with
      | none => simp [GenericTest.validate_CORS, ho, hmut, hh, hmem]
      | some av =>
        by_cases hpi : pyIn (chars "POST") av = false
        · simp [GenericTest.validate_CORS, ho, hmut, hh, hpi, hmem]
        · simp [GenericTest.validate_CORS, ho, hmut, hh, hpi, hsing, hmem]
  unfold GenericTest.check_response
  rw [hv]

/-- Witness for the C6 amended theorem at the concrete POST response used
by the counterexample. -/
theorem check_response_missing_allow_methods_witness :
    List.lookup (chars "Access-Control-Allow-Methods")
        [(chars "Access-Control-Allow-Origin", chars "*"),
         (chars "Access-Control-Allow-Headers", chars "Content-Type, POST")] = none ∧
    List.lookup (chars "Access-Control-Allow-Method")
        [(chars "Access-Control-Allow-Origin", chars "*"),
         (chars "Access-Control-Allow-Headers", chars "Content-Type, POST")] = none ∧
    GenericTest.check_response (chars "POST")
        [(chars "Access-Control-Allow-Origin", chars "*"),
         (chars "Access-Control-Allow-Headers", chars "Content-Type, POST")]
        (some ()) GenericTest.ValidationResult.ok
      = Except.ok (Outcome.fail (chars "Incorrect CORS headers: " ++
          GenericTest.reprHeaders
            [(chars "Access-Control-Allow-Origin", chars "*"),
             (chars "Access-Control-Allow-Headers", chars "Content-Type, POST")])) :=
  ⟨rfl, rfl,
    check_response_missing_allow_methods
      [(chars "Access-Control-Allow-Origin", chars "*"),
       (chars "Access-Control-Allow-Headers", chars "Content-Type, POST")]
      (some ()) GenericTest.ValidationResult.ok rfl rfl⟩

/-- The C7 claim as stated: when a body parses as JSON but fails schema
validation, check_response fails with a message retaining the validator
diagnostic verbatim, distinct from the message for a body that does not
parse as JSON. -/
def claimC7 : Prop :=
  ∀ (headers : GenericTest.Headers) (diag msg : Str),
    GenericTest.check_response (chars "GET") headers (some ())
        (GenericTest.ValidationResult.schemaViolation diag)
      = Except.ok (Outcome.fail msg) →
    pyIn diag msg = true ∧ msg ≠ chars "Invalid JSON received"

/-- C7 counterexample: with a concrete validator diagnostic the FAIL
message is the fixed string "Response schema validation error", which
does not contain the diagnostic. -/
theorem claimC7_false : ¬ claimC7 := by
  intro h
  have hc := h [(chars "Access-Control-Allow-Origin", chars "*")]
      (chars "data is not of type object")
      (chars "Response schema validation error") rfl
  exact absurd hc.1 (by decide)

/-- C7 amended: a schema-validation failure yields FAIL with the fixed
message "Response schema validation error" — the validator's diagnostic
text is not included — and that message is distinct from the
malformed-JSON FAIL message "Invalid JSON received". -/
theorem check_response_schema_violation_message
    (method : Str) (headers : GenericTest.Headers) (diag : Str)
    (hcors : GenericTest.validate_CORS method headers = Except.ok true) :
    GenericTest.check_response method headers (some ())
        (GenericTest.ValidationResult.schemaViolation diag)
      = Except.ok (Outcome.fail (chars "Response schema validation error")) ∧
    GenericTest.check_response method headers (some ())
        GenericTest.ValidationResult.notJson
      = Except.ok (Outcome.fail (chars "Invalid JSON received")) ∧
    chars "Response schema validation error" ≠ chars "Invalid JSON received" := by
  refine ⟨?_, ?_, by decide⟩
  · unfold GenericTest.check_response
    rw [hcors]
  · unfold GenericTest.check_response
    rw [hcors]

/-- Witness for the C7 amended theorem at a concrete GET response whose
cross-origin headers pass. -/
theorem check_response_schema_violation_message_witness :
    GenericTest.validate_CORS (chars "GET")
        [(chars "Access-Control-Allow-Origin", chars "*")] = Except.ok true ∧
    GenericTest.check_response (chars "GET")
        [(chars "Access-Control-Allow-Origin", chars "*")] (some ())
        (GenericTest.ValidationResult.schemaViolation (chars "x is not a valid uuid"))
      = Except.ok (Outcome.fail (chars "Response schema validation error")) :=
  ⟨rfl,
    (check_response_schema_violation_message (chars "GET")
      [(chars "Access-Control-Allow-Origin", chars "*")]
      (chars "x is not a valid uuid") rfl).1⟩

namespace IS0702

theorem preTimeoutLoopAux_none_iff (openAt : ℕ → Str → Bool) (uris : List Str) :
    ∀ (r t : ℕ), preTimeoutLoopAux openAt uris t r = none ↔
      ∀ s u, t ≤ s → s < t + r → u ∈ uris → openAt s u = true := by
  intro r
  induction r with
  | zero =>
    intro t
    constructor
    · intro _ s u hts hst _
      omega
    · intro _
      rfl
  | succ r ih =>
    intro t
    constructor
    · intro hnone s u hts hst hu
      simp only [preTimeoutLoopAux] at hnone
      cases hfind : uris.find? (fun u2 => ! openAt t u2) with
      | some u2 =>
        rw [hfind] at hnone
        simp at hnone
      | none =>
        rw [hfind] at hnone
        rcases Nat.eq_or_lt_of_le hts with heq | hlt
        · have hopen := List.find?_eq_none.mp hfind u hu
          simp only [Bool.not_eq_true] at hopen
          rw [← heq]
          simpa using hopen
        · exact (ih (t + 1)).mp hnone s u hlt (by omega) hu
    · intro hall
      simp only [preTimeoutLoopAux]
      cases hfind : uris.find? (fun u2 => ! openAt t u2) with
      | some u2 =>
        have hp := List.find?_some hfind
        have hm := List.mem_of_find?_eq_some hfind
        have hopen := hall t u2 (le_refl t) (by omega) hm
        simp [hopen] at hp
      | none =>
        exact (ih (t + 1)).mpr (fun s u hts hst hu => hall s u (by omega) (by omega) hu)

theorem preTimeoutLoopAux_some (openAt : ℕ → Str → Bool) (uris : List Str) :
    ∀ (r t : ℕ) (m : Str), preTimeoutLoopAux openAt uris t r = some m →
      ∃ u, u ∈ uris ∧ m = preTimeoutFailMsg u ∧
        ∃ s, t ≤ s ∧ s < t + r ∧ openAt s u = false := by
  intro r
  induction r with
  | zero =>
    intro t m h
    exact absurd h (by simp [preTimeoutLoopAux])
  | succ r ih =>
    intro t m h
    simp only [preTimeoutLoopAux] at h
    cases hfind : uris.find? (fun u2 => ! openAt t u2) with
    | some u2 =>
      rw [hfind] at h
      have hp := List.find?_some hfind
      have hm := List.mem_of_find?_eq_some hfind
      injection h with h1
      refine ⟨u2, hm, h1.symm, t, le_refl t, by omega, ?_⟩
      simpa using hp
    | none =>
      rw [hfind] at h
      obtain ⟨u, hu, hm2, s, hs1, hs2, hopen⟩ := ih (t + 1) m h
      exact ⟨u, hu, hm2, s, by omega, by omega, hopen⟩

theorem pySorted_eq_iff_of_nodup (l1 l2 : List Str)
    (h1 : l1.Nodup) (h2 : l2.Nodup) :
    pySorted l1 = pySorted l2 ↔ ∀ x, x ∈ l1 ↔ x ∈ l2 := by
  constructor
  · intro h x
    have p1 := List.perm_insertionSort (fun a b : Str => a ≤ b) l1
    have p2 := List.perm_insertionSort (fun a b : Str => a ≤ b) l2
    unfold pySorted at h
    rw [← h] at p2
    exact (p1.symm.trans p2).mem_iff
  · intro h
    have hperm : l1.Perm l2 := (List.perm_ext_iff_of_nodup h1 h2).mpr h
    unfold pySorted
    have hs1 := List.sorted_insertionSort (fun a b : Str => a ≤ b) l1
    have hs2 := List.sorted_insertionSort (fun a b : Str => a ≤ b) l2
    have hp : (List.insertionSort (fun a b : Str => a ≤ b) l1).Perm
        (List.insertionSort (fun a b : Str => a ≤ b) l2) :=
      ((List.perm_insertionSort _ l1).trans hperm).trans
        (List.perm_insertionSort _ l2).symm
    exact List.eq_of_perm_of_sorted hp hs1 hs2

end IS0702

/-- C3: for a kept-alive session sent the health command, the heartbeat
check fails when the session received zero messages or more than one;
with exactly one (parsed) reply the check can only pass when the reply's
origin timestamp equals the timestamp sent in the health command and its
creation timestamp compares strictly later than it; in particular a reply
with origin 1000:0 and creation 999:0 fails. -/
theorem health_check_requires_echo_and_later_creation
    (uri : Str) (sent : IS0702.Tai) (msgs : List (Option IS0702.HealthReply)) :
    (msgs.length ≠ 1 → (IS0702.healthCheckFail uri sent msgs).isSome = true) ∧
    (∀ r, msgs = [some r] → IS0702.healthCheckFail uri sent msgs = none →
      ∃ tm, r.timing = some tm ∧ tm.originTimestamp = some sent ∧
        ∃ c, tm.creationTimestamp = some c ∧
          IS0702.compare_resource_version c sent = 1) ∧
    (IS0702.healthCheckFail uri (1000, 0)
        [some ⟨some (chars "health"), some ⟨some (1000, 0), some (999, 0)⟩⟩]).isSome
      = true := by
  refine ⟨?_, ?_, rfl⟩
  · intro hlen
    cases msgs with
    | nil => rfl
    | cons m1 t =>
      cases t with
      | nil => exact absurd rfl hlen
      | cons m2 t2 => rfl
  · intro r hr hnone
    subst hr
    simp only [IS0702.healthCheckFail, IS0702.healthCheckReply] at hnone
    cases hmt : r.messageType with
    | none => rw [hmt] at hnone; simp at hnone
    | some mt =>
      rw [hmt] at hnone
      simp only [] at hnone
      split at hnone
      · simp at hnone
      · cases htm : r.timing with
        | none => rw [htm] at hnone; simp at hnone
        | some tm =>
          rw [htm] at hnone
          simp only [] at hnone
          cases horig : tm.originTimestamp with
          | none => rw [horig] at hnone; simp at hnone
          | some o =>
            rw [horig] at hnone
            simp only [] at hnone
            split at hnone
            · simp at hnone
            · next ho =>
              cases hcr : tm.creationTimestamp with
              | none => rw [hcr] at hnone; simp at hnone
              | some cts =>
                rw [hcr] at hnone
                simp only [] at hnone
                split at hnone
                · simp at hnone
                · next hcc =>
                  push_neg at ho hcc
                  refine ⟨tm, rfl, ?_, cts, hcr, hcc⟩
                  rw [horig, ho]

/-- Witness for C3: a session with zero received messages fails. -/
theorem health_check_requires_echo_and_later_creation_witness :
    (([] : List (Option IS0702.HealthReply)).length ≠ 1) ∧
    (IS0702.healthCheckFail (chars "ws://x") (0, 0) []).isSome = true :=
  ⟨by decide,
    (health_check_requires_echo_and_later_creation (chars "ws://x") (0, 0) []).1
      (by decide)⟩

/-- The C4 claim as stated: the not-kept-alive cohort is checked to stay
open only until one heartbeat interval before the advertised no-heartbeat
timeout (t < WS_TIMEOUT - WS_HEARTBEAT_INTERVAL = 7), so sessions all
open throughout that window produce no failure. -/
def claimC4 : Prop :=
  ∀ (openAt : ℕ → Str → Bool) (uris : List Str) (tStart : ℕ),
    (∀ s u, tStart ≤ s → s < IS0702.WS_TIMEOUT - IS0702.WS_HEARTBEAT_INTERVAL →
      u ∈ uris → openAt s u = true) →
    IS0702.preTimeoutLoop openAt uris tStart = none

/-- C4 counterexample: a session open at every second before 7 but closed
from second 8 on satisfies the claim's window yet the loop still reports
the closed-too-early failure, because the source keeps checking until
WS_TIMEOUT - 1 = 11 (line 373 subtracts one second, not one heartbeat
interval). -/
theorem claimC4_false : ¬ claimC4 := by
  intro h
  have hc := h (fun s _ => decide (s < 8)) [chars "ws://x"] 7 ?_
  · have hcomp : IS0702.preTimeoutLoop (fun s _ => decide (s < 8)) [chars "ws://x"] 7
        = some (IS0702.preTimeoutFailMsg (chars "ws://x")) := rfl
    rw [hcomp] at hc
    exact absurd hc (by simp)
  · intro s u hs1 hs2 _
    simp only [IS0702.WS_TIMEOUT, IS0702.WS_HEARTBEAT_INTERVAL] at hs2
    omega

/-- C4 amended: the pre-timeout loop checks the not-kept-alive cohort at
every polled second from its start until one second (not one heartbeat
interval) before the advertised no-heartbeat timeout, i.e. while
t < WS_TIMEOUT - 1 = 11; it reports no failure exactly when every session
of the cohort is open at every checked second, and any failure it reports
names a session observed non-open at some checked second. -/
theorem preTimeout_window_ends_one_second_before_timeout
    (openAt : ℕ → Str → Bool) (uris : List Str) (tStart : ℕ)
    (h : tStart ≤ IS0702.WS_TIMEOUT - 1) :
    (IS0702.preTimeoutLoop openAt uris tStart = none ↔
      ∀ s u, tStart ≤ s → s < IS0702.WS_TIMEOUT - 1 → u ∈ uris →
        openAt s u = true) ∧
    ∀ m, IS0702.preTimeoutLoop openAt uris tStart = some m →
      ∃ u, u ∈ uris ∧ m = IS0702.preTimeoutFailMsg u ∧
        ∃ s, tStart ≤ s ∧ s < IS0702.WS_TIMEOUT - 1 ∧ openAt s u = false := by
  have harith : tStart + (IS0702.WS_TIMEOUT - 1 - tStart) = IS0702.WS_TIMEOUT - 1 := by
    simp only [IS0702.WS_TIMEOUT] at h ⊢
    omega
  constructor
  · have hiff := IS0702.preTimeoutLoopAux_none_iff openAt uris
      (IS0702.WS_TIMEOUT - 1 - tStart) tStart
    rw [harith] at hiff
    exact hiff
  · intro m hm
    have hsome := IS0702.preTimeoutLoopAux_some openAt uris
      (IS0702.WS_TIMEOUT - 1 - tStart) tStart m hm
    rw [harith] at hsome
    exact hsome

/-- Witness for the C4 amended theorem: with every session always open
the loop reports nothing. -/
theorem preTimeout_window_ends_one_second_before_timeout_witness :
    (0 : ℕ) ≤ IS0702.WS_TIMEOUT - 1 ∧
    IS0702.preTimeoutLoop (fun _ _ => true) [chars "ws://x"] 0 = none :=
  ⟨Nat.zero_le _,
    (preTimeout_window_ends_one_second_before_timeout (fun _ _ => true)
      [chars "ws://x"] 0 (Nat.zero_le _)).1.mpr (fun s u _ _ _ => rfl)⟩

/-- C9: for a sender appearing in the active-parameters map, the set of
its ext_-prefixed transport parameters must equal exactly the declared
set for its transport kind: the check passes iff the sets coincide, and
any extra or missing ext parameter makes test_01 FAIL naming the sender
(websocket and mqtt cases). -/
theorem test01_ext_params_exact
    (s : IS0702.SenderRecord) (keys : List Str)
    (hk : s.activeParams = some keys) (hnd : keys.Nodup) :
    (s.transportType = chars "urn:x-nmos:transport:websocket" →
      ((IS0702.test_01 [s] = Outcome.pass ↔
        ∀ x, x ∈ keys.filter (fun p => pyStartsWith p (chars "ext_")) ↔
          x ∈ IS0702.ext_params_websocket) ∧
       (¬ (∀ x, x ∈ keys.filter (fun p => pyStartsWith p (chars "ext_")) ↔
            x ∈ IS0702.ext_params_websocket) →
        IS0702.test_01 [s]
          = Outcome.fail (chars "Missing required ext parameters for Sender "
              ++ s.senderId)))) ∧
    (s.transportType = chars "urn:x-nmos:transport:mqtt" →
      ((IS0702.test_01 [s] = Outcome.pass ↔
        ∀ x, x ∈ keys.filter (fun p => pyStartsWith p (chars "ext_")) ↔
          x ∈ IS0702.ext_params_mqtt) ∧
       (¬ (∀ x, x ∈ keys.filter (fun p => pyStartsWith p (chars "ext_")) ↔
            x ∈ IS0702.ext_params_mqtt) →
        IS0702.test_01 [s]
          = Outcome.fail (chars "Missing required ext parameters for Sender "
              ++ s.senderId)))) := by
  have hloop : IS0702.test_01 [s] =
      (if IS0702.test01_valid_params s.transportType keys then Outcome.pass
       else Outcome.fail (chars "Missing required ext parameters for Sender "
         ++ s.senderId)) := by
    simp only [IS0702.test_01, IS0702.test01_loop, hk]
  constructor
  · intro htr
    have hvalid : IS0702.test01_valid_params s.transportType keys
        = decide (IS0702.pySorted (keys.filter (fun p => pyStartsWith p (chars "ext_")))
            = IS0702.pySorted IS0702.ext_params_websocket) := by
      unfold IS0702.test01_valid_params
      rw [htr, if_pos rfl]
    have hiff := IS0702.pySorted_eq_iff_of_nodup
        (keys.filter (fun p => pyStartsWith p (chars "ext_")))
        IS0702.ext_params_websocket (hnd.filter _) (by decide)
    constructor
    · constructor
      · intro hpass
        by_cases hsort : IS0702.pySorted (keys.filter (fun p => pyStartsWith p (chars "ext_")))
            = IS0702.pySorted IS0702.ext_params_websocket
        · exact hiff.mp hsort
        · rw [hloop, hvalid, if_neg (by simpa using hsort)] at hpass
          exact absurd hpass (by simp)
      · intro hmem
        rw [hloop, hvalid, if_pos (decide_eq_true (hiff.mpr hmem))]
    · intro hne
      have hnsort : ¬ (IS0702.pySorted (keys.filter (fun p => pyStartsWith p (chars "ext_")))
          = IS0702.pySorted IS0702.ext_params_websocket) := fun hs => hne (hiff.mp hs)
      rw [hloop, hvalid, if_neg (by simpa using hnsort)]
  · intro htr
    have hvalid : IS0702.test01_valid_params s.transportType keys
        = decide (IS0702.pySorted (keys.filter (fun p => pyStartsWith p (chars "ext_")))
            = IS0702.pySorted IS0702.ext_params_mqtt) := by
      unfold IS0702.test01_valid_params
      rw [htr, if_neg (by decide), if_pos rfl]
    have hiff := IS0702.pySorted_eq_iff_of_nodup
        (keys.filter (fun p => pyStartsWith p (chars "ext_")))
        IS0702.ext_params_mqtt (hnd.filter _) (by decide)
    constructor
    · constructor
      · intro hpass
        by_cases hsort : IS0702.pySorted (keys.filter (fun p => pyStartsWith p (chars "ext_")))
            = IS0702.pySorted IS0702.ext_params_mqtt
        · exact hiff.mp hsort
        · rw [hloop, hvalid, if_neg (by simpa using hsort)] at hpass
          exact absurd hpass (by simp)
      · intro hmem
        rw [hloop, hvalid, if_pos (decide_eq_true (hiff.mpr hmem))]
    · intro hne
      have hnsort : ¬ (IS0702.pySorted (keys.filter (fun p => pyStartsWith p (chars "ext_")))
          = IS0702.pySorted IS0702.ext_params_mqtt) := fun hs => hne (hiff.mp hs)
      rw [hloop, hvalid, if_neg (by simpa using hnsort)]

/-- Witness for C9: a websocket sender carrying exactly the declared ext
parameters passes test_01. -/
theorem test01_ext_params_exact_witness :
    (IS0702.SenderRecord.mk (chars "s1") (chars "urn:x-nmos:transport:websocket")
        (some IS0702.ext_params_websocket)).activeParams
      = some IS0702.ext_params_websocket ∧
    IS0702.ext_params_websocket.Nodup ∧
    IS0702.test_01 [⟨chars "s1", chars "urn:x-nmos:transport:websocket",
        some IS0702.ext_params_websocket⟩] = Outcome.pass := by
  refine ⟨rfl, by decide, ?_⟩
  have h := (test01_ext_params_exact
      ⟨chars "s1", chars "urn:x-nmos:transport:websocket",
        some IS0702.ext_params_websocket⟩
      IS0702.ext_params_websocket rfl (by decide)).1 rfl
  refine h.1.mpr ?_
  intro x
  have hf : IS0702.ext_params_websocket.filter (fun p => pyStartsWith p (chars "ext_"))
      = IS0702.ext_params_websocket := by decide
  rw [hf]

